import Mathlib

/-
Verification development for the biztime repository (Express + node-postgres).

The embedding translates, from the source:
  - the pool-based data-access layer of db.js (the second, pool-backed
    module in the repository, the one imported by the middleware and the
    routes),
  - the per-request transaction middleware middleware/dbClient.js,
  - the PUT /invoices/:id route of routes/invoices.js,
  - getCalendarDate from routes/companies.js.

Modelling conventions:
  - JavaScript values that flow through query parameters are modelled by
    the JsVal type below, with JavaScript truthiness made explicit.
  - A backend (PostgreSQL, an external collaborator of the repository) is
    a state-passing function from an issued statement to a result: either
    a list of rows or a statement failure.  Every data-access function
    returns its JavaScript result, the list of statements it issued, and
    the backend state after the call.
  - Date values are represented by their ISO strings; Date.now() is an
    explicit nowIso argument and getCalendarDate mirrors
    new Date(d).toISOString().split("T")[0] as taking the part of the
    ISO string before the first "T".
-/

set_option autoImplicit false

namespace Biztime

/-- A JavaScript value as it appears in guards and query parameters. -/
inductive JsVal where
  | vnull
  | undef
  | str (s : String)
  | num (n : Int)
  | vbool (b : Bool)
deriving DecidableEq, Repr

/-- JavaScript truthiness of a JsVal: null, undefined, the empty string,
0 and false are falsy; everything else here is truthy. -/
def JsVal.truthy : JsVal → Bool
  | .vnull => false
  | .undef => false
  | .str s => !s.isEmpty
  | .num n => n != 0
  | .vbool b => b

/-- Which executor a statement is sent through: the shared pool
(pool.query) or the per-request transaction client (client.query). -/
inductive Exec where
  | pool
  | tx
deriving DecidableEq, Repr

/-- A parameterized statement: SQL text plus the parameter list. -/
structure Stmt where
  text : String
  params : List JsVal
deriving DecidableEq, Repr

/-- A statement together with the executor it was issued through. -/
structure Issued where
  exec : Exec
  stmt : Stmt
deriving DecidableEq, Repr

/-- Outcome of one statement at the backend: a row list, or a backend
error carrying the backend message. -/
inductive QueryResult (Row : Type) where
  | rows (rs : List Row)
  | failure (msg : String)
deriving DecidableEq, Repr

/-- Errors a data-access function can produce: an Error thrown by the
function itself (guard failures), or a backend statement error rethrown
unchanged. -/
inductive DAErr where
  | jsError (msg : String)
  | backendErr (msg : String)
deriving DecidableEq, Repr

/-- True when the result is an error. -/
def isErr {α : Type} : Except DAErr α → Bool
  | .error _ => true
  | .ok _ => false

/-- A stateful backend: consumes a state and an issued statement,
produces the next state and the statement result. -/
def Backend (σ Row : Type) : Type := σ → Issued → σ × QueryResult Row

/-- The result shape of a data-access call: the JavaScript-level result,
the statements issued during the call, and the backend state after it. -/
def DAOut (σ Row α : Type) : Type := Except DAErr α × List Issued × σ

/-- Issue one statement and interpret the backend answer: rows become the
ok result, a backend failure is rethrown unchanged. -/
def runQuery {σ Row : Type} (backend : Backend σ Row) (s : σ) (i : Issued) :
    DAOut σ Row (List Row) :=
  let out := backend s i
  (match out.2 with
   | .rows rs => .ok rs
   | .failure m => .error (.backendErr m),
   [i], out.1)

/-- Map res.rows to res.rows[0] (undefined when the list is empty). -/
def firstRow {σ Row : Type} (r : DAOut σ Row (List Row)) : DAOut σ Row (Option Row) :=
  (r.1.map List.head?, r.2.1, r.2.2)

/-- Embeds getAllCompanies (db.js, pool version): no guard; issues
SELECT * FROM companies through the pool when no client is supplied,
through the client otherwise (the query literal is written in each
branch, as in the source). -/
def getAllCompanies {σ Row : Type} (client : Option Unit)
    (backend : Backend σ Row) (s : σ) : DAOut σ Row (List Row) :=
  match client with
  | none => runQuery backend s ⟨.pool, ⟨"SELECT * FROM companies", []⟩⟩
  | some _ => runQuery backend s ⟨.tx, ⟨"SELECT * FROM companies", []⟩⟩

/-- Embeds getCompany (db.js, pool version): throws
"Company code is required." when the code is falsy, otherwise issues
SELECT * FROM companies WHERE code = $1 through pool or client and
returns res.rows[0]. -/
def getCompany {σ Row : Type} (code : JsVal) (client : Option Unit)
    (backend : Backend σ Row) (s : σ) : DAOut σ Row (Option Row) :=
  if !code.truthy then (.error (.jsError "Company code is required."), [], s)
  else
    match client with
    | none => firstRow (runQuery backend s ⟨.pool, ⟨"SELECT * FROM companies WHERE code = $1", [code]⟩⟩)
    | some _ => firstRow (runQuery backend s ⟨.tx, ⟨"SELECT * FROM companies WHERE code = $1", [code]⟩⟩)

/-- Embeds createCompany (db.js, pool version): requires truthy code and
name, then requires a client; inserts and returns the new row. -/
def createCompany {σ Row : Type} (code name description : JsVal)
    (client : Option Unit) (backend : Backend σ Row) (s : σ) :
    DAOut σ Row (Option Row) :=
  if !code.truthy || !name.truthy then
    (.error (.jsError "Company code and name are required."), [], s)
  else
    match client with
    | none => (.error (.jsError "Client is required."), [], s)
    | some _ =>
      firstRow (runQuery backend s
        ⟨.tx, ⟨"INSERT INTO companies (code, name, description) VALUES ($1, $2, $3) RETURNING *",
              [code, name, description]⟩⟩)

/-- Embeds updateCompany (db.js, pool version): requires a client, then
updates name and description by code and returns the updated row. -/
def updateCompany {σ Row : Type} (code name description : JsVal)
    (client : Option Unit) (backend : Backend σ Row) (s : σ) :
    DAOut σ Row (Option Row) :=
  match client with
  | none => (.error (.jsError "Client is required."), [], s)
  | some _ =>
    firstRow (runQuery backend s
      ⟨.tx, ⟨"UPDATE companies SET name = $1, description = $2 WHERE code = $3 RETURNING *",
            [name, description, code]⟩⟩)

/-- Embeds deleteCompany (db.js, pool version): requires a client, then
deletes by code and returns the deleted row. -/
def deleteCompany {σ Row : Type} (code : JsVal) (client : Option Unit)
    (backend : Backend σ Row) (s : σ) : DAOut σ Row (Option Row) :=
  match client with
  | none => (.error (.jsError "Client is required."), [], s)
  | some _ =>
    firstRow (runQuery backend s
      ⟨.tx, ⟨"DELETE FROM companies WHERE code = $1 RETURNING *", [code]⟩⟩)

/-- Embeds getInvoice (db.js, pool version): throws
"Invoice ID is required." when the id is falsy, otherwise issues
SELECT * FROM invoices WHERE id = $1 through pool or client and returns
res.rows[0]. -/
def getInvoice {σ Row : Type} (id : JsVal) (client : Option Unit)
    (backend : Backend σ Row) (s : σ) : DAOut σ Row (Option Row) :=
  if !id.truthy then (.error (.jsError "Invoice ID is required."), [], s)
  else
    match client with
    | none => firstRow (runQuery backend s ⟨.pool, ⟨"SELECT * FROM invoices WHERE id = $1", [id]⟩⟩)
    | some _ => firstRow (runQuery backend s ⟨.tx, ⟨"SELECT * FROM invoices WHERE id = $1", [id]⟩⟩)

/-- Characters of an ISO string before the first occurrence of T. -/
def takeBeforeT : List Char → List Char
  | [] => []
  | c :: cs => if c = 'T' then [] else c :: takeBeforeT cs

/-- Embeds getCalendarDate (routes/companies.js): with dates represented
by their ISO strings, new Date(d).toISOString().split("T")[0] is the
part of the string before the first "T". -/
def getCalendarDate (d : String) : String :=
  String.mk (takeBeforeT d.data)

/-- getCalendarDate lifted to JsVal date arguments: string dates take
their calendar part; other values are already calendar values in this
embedding and pass through. -/
def jsCalendarDate : JsVal → JsVal
  | .str s => .str (getCalendarDate s)
  | v => v

/-- Embeds createInvoice (db.js, pool version).  The undefined marker on
paid, add_date and paid_date triggers the JavaScript parameter defaults
paid = false, add_date = getCalendarDate(Date.now()), paid_date = null;
Date.now() is the explicit nowIso argument.  Requires a client, then
inserts [comp_code, amt, paid, add_date applied through getCalendarDate
when truthy, paid_date applied through getCalendarDate when truthy]. -/
def createInvoice {σ Row : Type} (comp_code amt paid add_date paid_date : JsVal)
    (client : Option Unit) (nowIso : String) (backend : Backend σ Row) (s : σ) :
    DAOut σ Row (Option Row) :=
  let paid := if paid = .undef then .vbool false else paid
  let add_date := if add_date = .undef then .str (getCalendarDate nowIso) else add_date
  let paid_date := if paid_date = .undef then .vnull else paid_date
  match client with
  | none => (.error (.jsError "Client is required."), [], s)
  | some _ =>
    firstRow (runQuery backend s
      ⟨.tx, ⟨"INSERT INTO invoices (comp_code, amt, paid, add_date, paid_date) VALUES ($1, $2, $3, $4, $5) RETURNING *",
            [comp_code, amt, paid,
             if add_date.truthy then jsCalendarDate add_date else add_date,
             if paid_date.truthy then jsCalendarDate paid_date else paid_date]⟩⟩)

/-- Builds the SET clauses and value list of updateInvoice from the
fields object, numbering parameters from the given index, as the
for-in loop in the source does. -/
def buildSetClauses : List (String × JsVal) → Nat → List String × List JsVal
  | [], _ => ([], [])
  | (f, v) :: rest, i =>
    let out := buildSetClauses rest (i + 1)
    ((f ++ " = $" ++ toString i) :: out.1, v :: out.2)

/-- The query text updateInvoice builds: the template literal with the
joined SET clauses and the id parameter index spliced in. -/
def updateInvoiceQueryText (setClauses : List String) (paramIndex : Nat) : String :=
  "\n    UPDATE invoices\n    SET " ++ String.intercalate ", " setClauses ++
    "\n    WHERE id = $" ++ toString paramIndex ++ "\n    RETURNING *\n  "

/-- Embeds updateInvoice (db.js, pool version): builds the SET clauses
from the supplied fields (no emptiness check), appends the id as the
last parameter, then requires a client and sends the built statement. -/
def updateInvoice {σ Row : Type} (id : JsVal) (fields : List (String × JsVal))
    (client : Option Unit) (backend : Backend σ Row) (s : σ) :
    DAOut σ Row (Option Row) :=
  let built := buildSetClauses fields 1
  let values := built.2 ++ [id]
  let paramIndex := fields.length + 1
  let query := updateInvoiceQueryText built.1 paramIndex
  match client with
  | none => (.error (.jsError "Client is required."), [], s)
  | some _ => firstRow (runQuery backend s ⟨.tx, ⟨query, values⟩⟩)

/-- Embeds updateInvoiceAmt (db.js, pool version): requires a client,
updates the amount by id and returns the updated row. -/
def updateInvoiceAmt {σ Row : Type} (id amt : JsVal) (client : Option Unit)
    (backend : Backend σ Row) (s : σ) : DAOut σ Row (Option Row) :=
  match client with
  | none => (.error (.jsError "Client is required."), [], s)
  | some _ =>
    firstRow (runQuery backend s
      ⟨.tx, ⟨"UPDATE invoices SET amt = $1 WHERE id = $2 RETURNING *", [amt, id]⟩⟩)

/-- Embeds deleteInvoice (db.js, pool version): requires a client,
deletes by id and returns the deleted row. -/
def deleteInvoice {σ Row : Type} (id : JsVal) (client : Option Unit)
    (backend : Backend σ Row) (s : σ) : DAOut σ Row (Option Row) :=
  match client with
  | none => (.error (.jsError "Client is required."), [], s)
  | some _ =>
    firstRow (runQuery backend s
      ⟨.tx, ⟨"DELETE FROM invoices WHERE id = $1 RETURNING *", [id]⟩⟩)

/-- Embeds getAllCompanyInvoices (db.js, pool version): the query is
defined once and the client argument selects only the executor. -/
def getAllCompanyInvoices {σ Row : Type} (code : JsVal) (client : Option Unit)
    (backend : Backend σ Row) (s : σ) : DAOut σ Row (List Row) :=
  let query := "SELECT * FROM invoices WHERE comp_code = $1"
  match client with
  | none => runQuery backend s ⟨.pool, ⟨query, [code]⟩⟩
  | some _ => runQuery backend s ⟨.tx, ⟨query, [code]⟩⟩

/-- Embeds updateInvoicePaidStatus (db.js, pool version): paidDate
defaults to null; requires a client, then updates paid and paid_date by
id with the paidDate passed through getCalendarDate when truthy. -/
def updateInvoicePaidStatus {σ Row : Type} (id paid paidDate : JsVal)
    (client : Option Unit) (backend : Backend σ Row) (s : σ) :
    DAOut σ Row (Option Row) :=
  let paidDate := if paidDate = .undef then .vnull else paidDate
  match client with
  | none => (.error (.jsError "Client is required."), [], s)
  | some _ =>
    firstRow (runQuery backend s
      ⟨.tx, ⟨"\n      UPDATE invoices\n      SET paid = $1, paid_date = $2\n      WHERE id = $3\n      RETURNING *",
            [paid, if paidDate.truthy then jsCalendarDate paidDate else paidDate, id]⟩⟩)

/-!
Transaction scope and middleware model.

db.js defines beginTransactions, commitTransactions and
rollbackTransactions as bare statement issuers on one pooled client; the
middleware middleware/dbClient.js opens the transaction, registers one
finish-event callback on the response and calls next().
-/

/-- Error vocabulary of the scope protocol as the specification names
it.  The implementation can only ever produce backendErr values (a
statement the backend rejected); invalidState is in the vocabulary so
that its absence is statable. -/
inductive ScopeError where
  | invalidState
  | backendErr (msg : String)
deriving DecidableEq, Repr

/-- One checked-out pooled connection, modelled by the log of the
statements issued on it. -/
structure PgConn where
  stmts : List String
deriving DecidableEq, Repr

/-- Embeds commitTransactions (db.js): issues COMMIT on the client and
nothing else — no state check, no release.  The backendOk flag says
whether the backend accepts the statement; on rejection the backend
error propagates. -/
def commitTransactions (c : PgConn) (backendOk : Bool) :
    PgConn × Except ScopeError Unit :=
  (⟨c.stmts ++ ["COMMIT"]⟩,
   if backendOk then .ok () else .error (.backendErr "COMMIT failed"))

/-- Embeds rollbackTransactions (db.js): issues ROLLBACK on the client
and nothing else — no state check, no release. -/
def rollbackTransactions (c : PgConn) (backendOk : Bool) :
    PgConn × Except ScopeError Unit :=
  (⟨c.stmts ++ ["ROLLBACK"]⟩,
   if backendOk then .ok () else .error (.backendErr "ROLLBACK failed"))

/-- Embeds beginTransactions (db.js): pool.connect() then BEGIN on the
acquired client; fails when either step fails.  The connAcquired flag of
the result records whether a pooled connection was checked out before
the failure (BEGIN failing leaves an acquired connection behind). -/
def beginTransactions (connectOk beginOk : Bool) :
    Except ScopeError PgConn × Bool :=
  if !connectOk then (.error (.backendErr "connect failed"), false)
  else if !beginOk then (.error (.backendErr "BEGIN failed"), true)
  else (.ok ⟨["BEGIN"]⟩, true)

/-- The finalization action the middleware chooses. -/
inductive FinalAction where
  | commit
  | rollback
deriving DecidableEq, Repr

/-- Which backend interactions succeed during one request. -/
structure ConnEnv where
  connectOk : Bool
  beginOk : Bool
  finalizeStmtOk : Bool
deriving DecidableEq, Repr

/-- Observable trace of one request through the middleware. -/
structure ReqTrace where
  handlerRan : Bool
  responseStatus : Nat
  connStmts : List String
  finalizeActions : List FinalAction
  releaseCount : Nat
  errorToNext : Bool
deriving DecidableEq, Repr

/-- Embeds the finish-event callback of middleware/dbClient.js: commit
when res.statusCode < 400, rollback otherwise, then client.release().
The await on the finalization statement means that when the statement
fails the callback aborts and client.release() on the following line
never runs. -/
def finishCallback (c : PgConn) (statusCode : Nat) (finalizeStmtOk : Bool) :
    PgConn × FinalAction × Nat :=
  if statusCode < 400 then
    let out := commitTransactions c finalizeStmtOk
    match out.2 with
    | .ok _ => (out.1, .commit, 1)
    | .error _ => (out.1, .commit, 0)
  else
    let out := rollbackTransactions c finalizeStmtOk
    match out.2 with
    | .ok _ => (out.1, .rollback, 1)
    | .error _ => (out.1, .rollback, 0)

/-- Embeds the dbClient middleware (middleware/dbClient.js) together
with the generic Express error handler of app.js.  When
beginTransactions throws, the catch block forwards the error to next and
the error handler answers 500; no finish callback was registered, so no
finalization and no release happen.  When the transaction opens, the
handler runs, the response finishes with handlerStatus, and the single
finish callback finalizes by status. -/
def dbClientRun (env : ConnEnv) (handlerStatus : Nat) : ReqTrace :=
  let opened := beginTransactions env.connectOk env.beginOk
  match opened.1 with
  | .error _ =>
    { handlerRan := false, responseStatus := 500, connStmts := [],
      finalizeActions := [], releaseCount := 0, errorToNext := true }
  | .ok c =>
    let fin := finishCallback c handlerStatus env.finalizeStmtOk
    { handlerRan := true, responseStatus := handlerStatus,
      connStmts := fin.1.stmts, finalizeActions := [fin.2.1],
      releaseCount := fin.2.2, errorToNext := false }

/-!
Route model for PUT /invoices/:id (routes/invoices.js) over the
data-access layer, with the ExpressError statuses of the route and the
generic error handler of app.js (err.status falling back to 500).
-/

/-- Observable outcome of one route invocation: the HTTP status of the
response and the statements issued at the backend. -/
structure RouteOut where
  status : Nat
  issued : List Issued
deriving DecidableEq, Repr

/-- Embeds the PUT /invoices/:id handler: rejects an empty fields object
with ExpressError 400 before calling updateInvoice; a missing row maps
to 404; a thrown data-access error reaches the generic handler as 500;
success answers 200. -/
def putInvoiceRoute {σ Row : Type} (invoiceId : JsVal)
    (fields : List (String × JsVal)) (client : Option Unit)
    (backend : Backend σ Row) (s : σ) : RouteOut :=
  if fields.length = 0 then ⟨400, []⟩
  else
    let out := updateInvoice invoiceId fields client backend s
    match out.1 with
    | .error _ => ⟨500, out.2.1⟩
    | .ok none => ⟨404, out.2.1⟩
    | .ok (some _) => ⟨200, out.2.1⟩

/-!
Concrete relational backend for the create-and-fetch scenario: minimal
semantics of the three statements the scenario issues, against an
in-memory two-table state.  PostgreSQL is an external collaborator of
the repository; this interprets exactly the statement texts the embedded
functions build.
-/

/-- A row of the companies table. -/
structure CompanyRow where
  code : JsVal
  name : JsVal
  description : JsVal
deriving DecidableEq, Repr

/-- A row of the invoices table; the id is assigned by the backend. -/
structure InvoiceRow where
  id : Nat
  comp_code : JsVal
  amt : JsVal
  paid : JsVal
  add_date : JsVal
  paid_date : JsVal
deriving DecidableEq, Repr

/-- A row of either table, as returned to the data-access layer. -/
inductive BizRow where
  | comp (c : CompanyRow)
  | inv (i : InvoiceRow)
deriving DecidableEq, Repr

/-- In-memory backend state: both tables and the next serial id. -/
structure BizDB where
  companies : List CompanyRow
  invoices : List InvoiceRow
  nextInvoiceId : Nat
deriving DecidableEq, Repr

/-- Interprets the company insert, the invoice insert and the invoice
select-by-id statements against a BizDB; anything else fails. -/
def bizBackend : Backend BizDB BizRow := fun s i =>
  if i.stmt.text = "INSERT INTO companies (code, name, description) VALUES ($1, $2, $3) RETURNING *" then
    match i.stmt.params with
    | [c, n, d] =>
      let row : CompanyRow := ⟨c, n, d⟩
      ({ s with companies := s.companies ++ [row] }, .rows [.comp row])
    | _ => (s, .failure "invalid parameters")
  else if i.stmt.text = "INSERT INTO invoices (comp_code, amt, paid, add_date, paid_date) VALUES ($1, $2, $3, $4, $5) RETURNING *" then
    match i.stmt.params with
    | [cc, a, p, ad, pd] =>
      let row : InvoiceRow := ⟨s.nextInvoiceId, cc, a, p, ad, pd⟩
      ({ s with invoices := s.invoices ++ [row], nextInvoiceId := s.nextInvoiceId + 1 },
       .rows [.inv row])
    | _ => (s, .failure "invalid parameters")
  else if i.stmt.text = "SELECT * FROM invoices WHERE id = $1" then
    match i.stmt.params with
    | [k] => (s, .rows ((s.invoices.filter (fun r => k = .num (Int.ofNat r.id))).map .inv))
    | _ => (s, .failure "invalid parameters")
  else (s, .failure "unsupported statement")

/-- C1: for every request whose transaction was successfully opened by
the middleware, exactly one finalization runs after the response
finishes, and its action depends only on the final status code: commit
when the status is below 400, rollback otherwise, regardless of how the
handler produced that status. -/
theorem c1_finalization_by_status (env : ConnEnv) (status : Nat)
    (hc : env.connectOk = true) (hb : env.beginOk = true) :
    (dbClientRun env status).finalizeActions =
      [if status < 400 then FinalAction.commit else FinalAction.rollback] := by
  rcases env with ⟨co, bo, fo⟩
  simp only at hc hb
  subst hc
  subst hb
  by_cases h : status < 400 <;> cases fo <;>
    simp [dbClientRun, beginTransactions, finishCallback, commitTransactions,
      rollbackTransactions, h]

/-- Witness for C1 at a concrete input: a 404 response on a successfully
opened transaction is finalized exactly once, by rollback. -/
theorem c1_finalization_by_status_witness :
    (dbClientRun ⟨true, true, true⟩ 404).finalizeActions = [FinalAction.rollback] := by
  have h := c1_finalization_by_status ⟨true, true, true⟩ 404 rfl rfl
  simpa using h

/-- C2 evaluated at the failing input: when the transaction opened, the
response finished with status 404 and the ROLLBACK statement fails, the
finish callback of the middleware aborts at the await and the
client.release() line never runs: the rollback is attempted but the
release count stays zero, a leaked connection. -/
theorem c2_finalize_failure_skips_release :
    (dbClientRun ⟨true, true, false⟩ 404).finalizeActions = [FinalAction.rollback] ∧
    (dbClientRun ⟨true, true, false⟩ 404).connStmts = ["BEGIN", "ROLLBACK"] ∧
    (dbClientRun ⟨true, true, false⟩ 404).releaseCount = 0 := by
  refine ⟨rfl, rfl, rfl⟩

/-- C3 counterexample: a scope whose transaction was already committed
accepts a second commitTransactions call, which succeeds (no
InvalidState failure) and issues a further COMMIT statement on the
connection, contradicting the claim that the second call fails with
InvalidState and performs no further action. -/
theorem c3_second_commit_counterexample :
    (commitTransactions ⟨["BEGIN", "COMMIT"]⟩ true).2 = .ok () ∧
    (commitTransactions ⟨["BEGIN", "COMMIT"]⟩ true).1.stmts =
      ["BEGIN", "COMMIT", "COMMIT"] := by
  refine ⟨rfl, rfl⟩

/-- C3 amended: the implementation keeps no scope state and never
produces an InvalidState error; any commitTransactions or
rollbackTransactions call, including a repeated one, issues exactly one
further COMMIT or ROLLBACK statement on the connection.  Release is
performed only by the single finish callback of the middleware, so per
request the connection is released at most once. -/
theorem c3_no_invalid_state_tracking (c : PgConn) (ok : Bool) :
    (commitTransactions c ok).1.stmts = c.stmts ++ ["COMMIT"] ∧
    (commitTransactions c ok).2 ≠ .error ScopeError.invalidState ∧
    (rollbackTransactions c ok).1.stmts = c.stmts ++ ["ROLLBACK"] ∧
    (rollbackTransactions c ok).2 ≠ .error ScopeError.invalidState ∧
    ∀ (env : ConnEnv) (status : Nat), (dbClientRun env status).releaseCount ≤ 1 := by
  refine ⟨rfl, ?_, rfl, ?_, ?_⟩
  · cases ok <;> simp [commitTransactions]
  · cases ok <;> simp [rollbackTransactions]
  · intro env status
    rcases env with ⟨co, bo, fo⟩
    by_cases h : status < 400 <;> cases co <;> cases bo <;> cases fo <;>
      simp [dbClientRun, beginTransactions, finishCallback, commitTransactions,
        rollbackTransactions, h]

/-- C4: when opening the transaction fails (pool acquisition or BEGIN
fails), the error goes to the Express error handler, which answers 500;
the route handler never runs and no commit, rollback or release is
attempted for that request. -/
theorem c4_open_failure_no_finalization (env : ConnEnv) (status : Nat)
    (h : env.connectOk = false ∨ env.beginOk = false) :
    (dbClientRun env status).handlerRan = false ∧
    (dbClientRun env status).errorToNext = true ∧
    (dbClientRun env status).responseStatus = 500 ∧
    (dbClientRun env status).finalizeActions = [] ∧
    (dbClientRun env status).releaseCount = 0 ∧
    (dbClientRun env status).connStmts = [] := by
  rcases env with ⟨co, bo, fo⟩
  cases co <;> cases bo <;> cases fo <;>
    simp_all [dbClientRun, beginTransactions]

/-- Witness for C4 at a concrete input: pool acquisition fails. -/
theorem c4_open_failure_no_finalization_witness :
    (dbClientRun ⟨false, true, true⟩ 200).handlerRan = false ∧
    (dbClientRun ⟨false, true, true⟩ 200).errorToNext = true ∧
    (dbClientRun ⟨false, true, true⟩ 200).responseStatus = 500 ∧
    (dbClientRun ⟨false, true, true⟩ 200).finalizeActions = [] ∧
    (dbClientRun ⟨false, true, true⟩ 200).releaseCount = 0 ∧
    (dbClientRun ⟨false, true, true⟩ 200).connStmts = [] :=
  c4_open_failure_no_finalization ⟨false, true, true⟩ 200 (Or.inl rfl)

/-- C5 counterexample: the data-access function updateInvoice performs
no emptiness check; called directly with an empty field set and a
client, it sends the backend a statement whose SET list is empty. -/
theorem c5_empty_fields_reaches_backend :
    (updateInvoice (.num 1) [] (some ())
        (fun (s : Unit) _ => (s, .rows ([] : List Unit))) ()).2.1 =
      [⟨.tx, ⟨"\n    UPDATE invoices\n    SET \n    WHERE id = $1\n    RETURNING *\n  ",
             [.num 1]⟩⟩] := by
  rfl

/-- C5 amended: the empty-field-set rejection lives in the route layer,
not in the data-access function: PUT /invoices/:id answers 400 without
issuing any statement when the request body has no fields, for every id,
client and backend. -/
theorem c5_route_rejects_empty_fields {σ Row : Type} (id : JsVal)
    (client : Option Unit) (backend : Backend σ Row) (s : σ) :
    putInvoiceRoute id [] client backend s = ⟨400, []⟩ :=
  rfl

/-- C6: every write data-access function called without a client throws
an Error and issues no statement, while a read such as getAllCompanies
falls back to the shared pool. -/
theorem c6_writes_require_client {σ Row : Type} (backend : Backend σ Row) (s : σ)
    (code name description idv amt paid add_date paid_date : JsVal)
    (fields : List (String × JsVal)) (nowIso : String) :
    (isErr (createCompany code name description none backend s).1 = true ∧
      (createCompany code name description none backend s).2.1 = []) ∧
    (isErr (updateCompany code name description none backend s).1 = true ∧
      (updateCompany code name description none backend s).2.1 = []) ∧
    (isErr (deleteCompany code none backend s).1 = true ∧
      (deleteCompany code none backend s).2.1 = []) ∧
    (isErr (createInvoice code amt paid add_date paid_date none nowIso backend s).1 = true ∧
      (createInvoice code amt paid add_date paid_date none nowIso backend s).2.1 = []) ∧
    (isErr (updateInvoice idv fields none backend s).1 = true ∧
      (updateInvoice idv fields none backend s).2.1 = []) ∧
    (isErr (updateInvoiceAmt idv amt none backend s).1 = true ∧
      (updateInvoiceAmt idv amt none backend s).2.1 = []) ∧
    (isErr (deleteInvoice idv none backend s).1 = true ∧
      (deleteInvoice idv none backend s).2.1 = []) ∧
    (isErr (updateInvoicePaidStatus idv paid paid_date none backend s).1 = true ∧
      (updateInvoicePaidStatus idv paid paid_date none backend s).2.1 = []) ∧
    (getAllCompanies none backend s).2.1.map Issued.exec = [Exec.pool] := by
  refine ⟨⟨?_, ?_⟩, ⟨rfl, rfl⟩, ⟨rfl, rfl⟩, ⟨rfl, rfl⟩, ⟨rfl, rfl⟩,
    ⟨rfl, rfl⟩, ⟨rfl, rfl⟩, ⟨rfl, rfl⟩, rfl⟩
  · unfold createCompany
    split <;> rfl
  · unfold createCompany
    split <;> rfl

/-- C7: for a keyed lookup with a truthy key, a backend answer of rows
yields res.rows[0] (absent when the row list is empty, never an error),
while a backend statement failure is rethrown with its message
unchanged; this holds for getCompany and getInvoice through either
executor. -/
theorem c7_lookup_absence_vs_failure {σ Row : Type} (code idv : JsVal)
    (client : Option Unit) (s : σ) (rs : List Row) (m : String)
    (hc : code.truthy = true) (hi : idv.truthy = true) :
    (getCompany code client (fun (s2 : σ) _ => (s2, .rows rs)) s).1 = .ok rs.head? ∧
    (getCompany code client (fun (s2 : σ) _ => (s2, (.failure m : QueryResult Row))) s).1 =
      .error (.backendErr m) ∧
    (getInvoice idv client (fun (s2 : σ) _ => (s2, .rows rs)) s).1 = .ok rs.head? ∧
    (getInvoice idv client (fun (s2 : σ) _ => (s2, (.failure m : QueryResult Row))) s).1 =
      .error (.backendErr m) := by
  cases client <;>
    simp only [getCompany, getInvoice, hc, hi, runQuery, firstRow, Bool.not_true,
      Bool.false_eq_true, if_false] <;>
    exact ⟨rfl, rfl, rfl, rfl⟩

/-- Witness for C7 at concrete inputs: looking up company code c1 and
invoice id 7 with an empty result set yields an absent row, and a
backend failure message propagates unchanged. -/
theorem c7_lookup_absence_vs_failure_witness :
    (getCompany (.str "c1") none (fun (s2 : Unit) _ => (s2, .rows ([] : List Unit))) ()).1 =
      .ok none ∧
    (getCompany (.str "c1") none
        (fun (s2 : Unit) _ => (s2, (.failure "backend failure" : QueryResult Unit))) ()).1 =
      .error (.backendErr "backend failure") ∧
    (getInvoice (.num 7) none (fun (s2 : Unit) _ => (s2, .rows ([] : List Unit))) ()).1 =
      .ok none ∧
    (getInvoice (.num 7) none
        (fun (s2 : Unit) _ => (s2, (.failure "backend failure" : QueryResult Unit))) ()).1 =
      .error (.backendErr "backend failure") :=
  c7_lookup_absence_vs_failure (.str "c1") (.num 7) none () [] "backend failure"
    (by decide) (by decide)

/-- C8: an invoice created without explicit optional arguments carries
paid = false and paid_date = null in the insert parameters for every
company code, amount, current time and backend state; and in the
concrete scenario (company c1, invoice of amount 500 created at an
ISO instant of day 2024-05-20, fetched by its assigned id 1) the fetched
row has comp_code c1, amt 500, paid false, add_date 2024-05-20 and
paid_date null. -/
theorem c8_create_invoice_defaults :
    (∀ (cc a : JsVal) (nowIso : String) (s : BizDB),
      ((createInvoice cc a .undef .undef .undef (some ()) nowIso bizBackend s).2.1.map
          (fun i => i.stmt.params.getD 2 .undef)) = [.vbool false] ∧
      ((createInvoice cc a .undef .undef .undef (some ()) nowIso bizBackend s).2.1.map
          (fun i => i.stmt.params.getD 4 .undef)) = [.vnull]) ∧
    (getInvoice (.num 1) (some ()) bizBackend
        (createInvoice (.str "c1") (.num 500) .undef .undef .undef (some ())
            "2024-05-20T10:30:00.000Z" bizBackend
            (createCompany (.str "c1") (.str "Company1") (.str "Description1") (some ())
                bizBackend ⟨[], [], 1⟩).2.2).2.2).1 =
      .ok (some (.inv ⟨1, .str "c1", .num 500, .vbool false, .str "2024-05-20", .vnull⟩)) := by
  refine ⟨fun cc a nowIso s => ⟨rfl, rfl⟩, ?_⟩
  rfl

/-- C9: for the read-only functions getAllCompanies, getInvoice and
getAllCompanyInvoices, the statement (SQL text and parameter list) sent
to the backend is the same whether the call runs on the shared pool (no
client) or on a supplied transaction client; the client argument selects
only the executor. -/
theorem c9_reads_same_statement_either_executor {σ Row : Type}
    (b1 b2 : Backend σ Row) (s1 s2 : σ) (code idv : JsVal) :
    (getAllCompanies none b1 s1).2.1.map Issued.stmt =
      (getAllCompanies (some ()) b2 s2).2.1.map Issued.stmt ∧
    (getInvoice idv none b1 s1).2.1.map Issued.stmt =
      (getInvoice idv (some ()) b2 s2).2.1.map Issued.stmt ∧
    (getAllCompanyInvoices code none b1 s1).2.1.map Issued.stmt =
      (getAllCompanyInvoices code (some ()) b2 s2).2.1.map Issued.stmt := by
  refine ⟨rfl, ?_, rfl⟩
  by_cases h : idv.truthy <;> simp [getInvoice, h, runQuery, firstRow]

/-- C10: a falsy key is rejected before any statement is issued: an
empty-string code makes getCompany throw "Company code is required.",
and a zero or undefined id makes getInvoice throw
"Invoice ID is required.", each with an empty statement list and an
unchanged backend state. -/
theorem c10_falsy_key_rejected {σ Row : Type} (client : Option Unit)
    (backend : Backend σ Row) (s : σ) :
    getCompany (.str "") client backend s =
      (.error (.jsError "Company code is required."), [], s) ∧
    getInvoice (.num 0) client backend s =
      (.error (.jsError "Invoice ID is required."), [], s) ∧
    getInvoice .undef client backend s =
      (.error (.jsError "Invoice ID is required."), [], s) := by
  refine ⟨rfl, rfl, rfl⟩

end Biztime
